import Mathlib

/-!
Verification of the meeting-scheduler server's booking core against its
natural-language specification.  The Python source (FastAPI + MongoDB) is
shallowly embedded: each MongoDB collection becomes a list of records, each
route handler becomes a pure function from a database state (plus the
request and the ambient clock) to a result paired with the successor state.
Timestamps are modelled as naive wall-clock values measured in seconds on an
idealised proleptic calendar; the embedding of `datetime.fromisoformat`
covers exactly the fixed-width ISO-8601 forms the API exchanges.
-/

namespace MeetingScheduler

/-- Numeric value of a decimal digit character, `none` on a non-digit.
Models the per-character validation inside Python's ISO-8601 parsing. -/
def digitVal (c : Char) : Option Nat :=
  if c.isDigit then some (c.toNat - 48) else none

/-- Two-digit decimal field of an ISO-8601 string. -/
def parse2 (a b : Char) : Option Nat := do
  let x ← digitVal a
  let y ← digitVal b
  pure (x * 10 + y)

/-- Four-digit decimal field (the year) of an ISO-8601 string. -/
def parse4 (a b c d : Char) : Option Nat := do
  let x ← digitVal a
  let y ← digitVal b
  let z ← digitVal c
  let w ← digitVal d
  pure (((x * 10 + y) * 10 + z) * 10 + w)

/-- Gregorian leap-year test, as in Python's `calendar.isleap`. -/
def isLeapYear (y : Nat) : Bool :=
  (y % 4 == 0 && y % 100 != 0) || (y % 400 == 0)

/-- Days elapsed before the first of month `m` in a non-leap year. -/
def daysBeforeMonth (m : Nat) : Nat :=
  match m with
  | 1 => 0 | 2 => 31 | 3 => 59 | 4 => 90 | 5 => 120 | 6 => 151
  | 7 => 181 | 8 => 212 | 9 => 243 | 10 => 273 | 11 => 304 | _ => 334

/-- Day count of a proleptic-Gregorian civil date from year 1, the ordinal
used by Python's `datetime.toordinal`. -/
def toDays (y m d : Nat) : Nat :=
  let prior := y - 1
  let leaps := prior / 4 - prior / 100 + prior / 400
  let leapAdj := if 2 < m && isLeapYear y then 1 else 0
  365 * prior + leaps + daysBeforeMonth m + leapAdj + (d - 1)

/-- Wall-clock timestamp in seconds of a civil date-time. -/
def toSeconds (y mo da ho mi se : Nat) : Nat :=
  ((toDays y mo da * 24 + ho) * 60 + mi) * 60 + se

/-- Parse the fourteen digit characters of `YYYY-MM-DDTHH:MM:SS`, checking
the field ranges that `datetime.fromisoformat` enforces (the day-of-month
upper bound is simplified to 31). -/
def parseFields (y1 y2 y3 y4 mo1 mo2 d1 d2 hh1 hh2 mi1 mi2 s1 s2 : Char) :
    Option Nat := do
  let y ← parse4 y1 y2 y3 y4
  let mo ← parse2 mo1 mo2
  let da ← parse2 d1 d2
  let ho ← parse2 hh1 hh2
  let mi ← parse2 mi1 mi2
  let se ← parse2 s1 s2
  if 1 ≤ y && 1 ≤ mo && mo ≤ 12 && 1 ≤ da && da ≤ 31 &&
      ho ≤ 23 && mi ≤ 59 && se ≤ 59 then
    pure (toSeconds y mo da ho mi se)
  else none

/-- Embedding of `datetime.fromisoformat(s)` followed by
`replace(tzinfo=None)` as `book_meeting` performs it (public.py lines
206-209): the fixed-width forms `YYYY-MM-DDTHH:MM:SS` and
`YYYY-MM-DDTHH:MM:SS±HH:MM` are accepted, and an offset suffix is dropped
without converting, exactly as `replace(tzinfo=None)` keeps the wall clock
and discards the zone.  Anything else is a parse failure (a `ValueError`
in the source, surfacing as a 500 response). -/
def parseNaive (s : String) : Option Nat :=
  match s.data with
  | [y1, y2, y3, y4, h1, mo1, mo2, h2, d1, d2, tc, hh1, hh2, c1, mi1, mi2,
      c2, s1, s2] =>
    if h1 == '-' && h2 == '-' && tc == 'T' && c1 == ':' && c2 == ':' then
      parseFields y1 y2 y3 y4 mo1 mo2 d1 d2 hh1 hh2 mi1 mi2 s1 s2
    else none
  | [y1, y2, y3, y4, h1, mo1, mo2, h2, d1, d2, tc, hh1, hh2, c1, mi1, mi2,
      c2, s1, s2, sg, o1, o2, c3, o3, o4] =>
    if (sg == '+' || sg == '-') && c3 == ':' && h1 == '-' && h2 == '-' &&
        tc == 'T' && c1 == ':' && c2 == ':' then
      match parse2 o1 o2, parse2 o3 o4 with
      | some oh, some om =>
        if oh ≤ 23 && om ≤ 59 then
          parseFields y1 y2 y3 y4 mo1 mo2 d1 d2 hh1 hh2 mi1 mi2 s1 s2
        else none
      | _, _ => none
    else none
  | _ => none

/-- A `schedule_links` document as stored by `create_schedule_link`
(schedule_links.py lines 75-91).  Optional fields mirror the raw document
reads `link.get(...)` in the handlers; `createdAt`/`updatedAt` are not
consulted by any verified behaviour and are omitted. -/
structure Link where
  id : Nat
  userId : String
  slug : String
  meetingLength : Option Nat
  maxUses : Option Nat
  expirationDate : Option Nat
  maxDaysInAdvance : Option Nat
  customQuestions : List String
  uses : Nat
deriving DecidableEq, Repr

/-- A `scheduled_events` document (a committed booking) as inserted by
`book_meeting` (public.py lines 233-245). -/
structure SEvent where
  id : Nat
  schedulingLinkId : Nat
  userId : String
  scheduledFor : String
  durationMinutes : Nat
  email : String
  linkedin : Option String
deriving DecidableEq, Repr

/-- A `calendars` document, reduced to the fields the booking path keys on
(public.py lines 263-280). -/
structure Calendar where
  id : String
  userEmail : String
deriving DecidableEq, Repr

/-- An `events` document: a busy interval on a calendar, as inserted by
`book_meeting` (public.py lines 284-298) or by the external sync. -/
structure CalEvent where
  calendarId : String
  sourceId : String
  startTime : Nat
  endTime : Nat
  status : String
  summary : String
deriving DecidableEq, Repr

/-- An `availability_windows` document as inserted by `save_availability`
(availability.py lines 31-42). -/
structure WindowDoc where
  userId : String
  weekday : String
  startTime : String
  endTime : String
deriving DecidableEq, Repr

/-- The durable state: one list per MongoDB collection, plus the id counter
standing in for ObjectId generation on insert. -/
structure DB where
  scheduleLinks : List Link
  scheduledEvents : List SEvent
  calendars : List Calendar
  events : List CalEvent
  availabilityWindows : List WindowDoc
  nextId : Nat
deriving DecidableEq, Repr

/-- Outcome of `book_meeting`, one constructor per distinguishable response
of the handler (public.py lines 165-342). `serverError` covers the
500 responses: an unparseable timestamp and a failed calendar-event
insert. -/
inductive BookResult where
  | success (eventId : Nat)
  | notFound
  | expired
  | usageExceeded
  | tooFarInAdvance
  | slotTaken
  | serverError
deriving DecidableEq, Repr

/-- Expiry test of `book_meeting` (public.py lines 183-193): a stored
expiration date strictly before today's date rejects.  The stored ISO date
is abstracted to its day ordinal. -/
def expiredBefore (expirationDate : Option Nat) (nowDate : Nat) : Bool :=
  match expirationDate with
  | none => false
  | some d => decide (d < nowDate)

/-- Usage-cap test of `book_meeting` (public.py lines 196-202):
`if max_uses:` is Python truthiness, so an absent or zero cap never
rejects; otherwise reject when `uses >= max_uses`. -/
def capExceeded (uses : Nat) (maxUses : Option Nat) : Bool :=
  match maxUses with
  | none => false
  | some m => m != 0 && decide (uses ≥ m)

/-- Lazy upsert of the owner's internal calendar (public.py lines
263-280): update the `(id="internal", user_email)` document if present,
insert it otherwise. -/
def upsertInternalCalendar (db : DB) (userEmail : String) : DB :=
  if db.calendars.any (fun c => c.id == "internal" && c.userEmail == userEmail) then
    db
  else
    { db with calendars := db.calendars ++ [⟨"internal", userEmail⟩] }

/-- The booking request body (models/scheduled_events.py `ScheduledEvent`),
after FastAPI's pydantic boundary. -/
structure BookingReq where
  schedulingLinkId : Nat
  email : String
  scheduledFor : String
  durationMinutes : Nat
  linkedin : Option String
deriving DecidableEq, Repr

/-- Embedding of the `book_meeting` handler (public.py lines 165-342).
Inputs beyond the request: `now` is `datetime.utcnow()` in seconds,
`nowDate` its day ordinal, and `eventsInsertOk` models whether the
calendar-event insert of line 298 succeeds (its failure raises a 500
after the booking insert and the usage increment have been performed).
Returns the response and the successor database state. -/
def bookMeeting (db : DB) (req : BookingReq) (now nowDate : Nat)
    (eventsInsertOk : Bool) : BookResult × DB :=
  match db.scheduleLinks.find? (fun l => l.id == req.schedulingLinkId) with
  | none => (.notFound, db)
  | some link =>
    let userEmail := link.userId
    if expiredBefore link.expirationDate nowDate then (.expired, db)
    else if capExceeded link.uses link.maxUses then (.usageExceeded, db)
    else
      match parseNaive req.scheduledFor with
      | none => (.serverError, db)
      | some scheduledDate =>
        let maxDays := link.maxDaysInAdvance.getD 14
        let maxFutureDate := now + maxDays * 86400
        if scheduledDate > maxFutureDate then (.tooFarInAdvance, db)
        else if db.scheduledEvents.any
            (fun e => e.userId == userEmail && e.scheduledFor == req.scheduledFor) then
          (.slotTaken, db)
        else
          let duration := link.meetingLength.getD req.durationMinutes
          let eventId := db.nextId
          let newEvent : SEvent :=
            ⟨eventId, req.schedulingLinkId, userEmail, req.scheduledFor,
              duration, req.email, req.linkedin⟩
          let db1 := { db with
            scheduledEvents := db.scheduledEvents ++ [newEvent],
            nextId := db.nextId + 1 }
          let db2 := { db1 with
            scheduleLinks := db1.scheduleLinks.map (fun l =>
              if l.id == req.schedulingLinkId then { l with uses := l.uses + 1 }
              else l) }
          let db3 := upsertInternalCalendar db2 userEmail
          if eventsInsertOk then
            let calEvent : CalEvent :=
              ⟨"internal", toString eventId, scheduledDate,
                scheduledDate + duration * 60, "confirmed",
                "Meeting with client " ++ req.email⟩
            (.success eventId, { db3 with events := db3.events ++ [calEvent] })
          else (.serverError, db3)

/-- Outcome of the public link view `get_public_schedule_link` of
schedule_links.py (lines 232-273), carrying the public fields of its
response. -/
inductive ViewResult where
  | ok (slug : String) (meetingLength : Option Nat) (maxDaysInAdvance : Nat)
      (customQuestions : List String)
  | notFound
  | expired
  | maxedOut
deriving DecidableEq, Repr

/-- Embedding of `get_public_schedule_link` from schedule_links.py (lines
232-273): look the link up by slug, reject if expired or at its cap, and
otherwise increment the `uses` counter (lines 252-256) before returning
the public fields, where `maxDaysInAdvance` falls back to 30 (line 262). -/
def viewPublicLinkBySlug (db : DB) (slug : String) (nowDate : Nat) :
    ViewResult × DB :=
  match db.scheduleLinks.find? (fun l => l.slug == slug) with
  | none => (.notFound, db)
  | some link =>
    if expiredBefore link.expirationDate nowDate then (.expired, db)
    else if capExceeded link.uses link.maxUses then (.maxedOut, db)
    else
      let db1 := { db with scheduleLinks := db.scheduleLinks.map (fun l =>
        if l.id == link.id then { l with uses := l.uses + 1 } else l) }
      (.ok link.slug link.meetingLength (link.maxDaysInAdvance.getD 30)
        link.customQuestions, db1)

/-- Outcome of `increment_link_usage` (schedule_links.py lines 275-311). -/
inductive IncResult where
  | ok
  | notFound
  | expired
  | maxedOut
deriving DecidableEq, Repr

/-- Embedding of the `increment_link_usage` endpoint (schedule_links.py
lines 275-311): the same guards as the public view, then an unconditional
`$inc` of `uses` keyed by the link id (lines 296-299). -/
def incrementLinkUsage (db : DB) (slug : String) (nowDate : Nat) :
    IncResult × DB :=
  match db.scheduleLinks.find? (fun l => l.slug == slug) with
  | none => (.notFound, db)
  | some link =>
    if expiredBefore link.expirationDate nowDate then (.expired, db)
    else if capExceeded link.uses link.maxUses then (.maxedOut, db)
    else
      let db1 := { db with scheduleLinks := db.scheduleLinks.map (fun l =>
        if l.id == link.id then { l with uses := l.uses + 1 } else l) }
      (.ok, db1)

/-- A link create/update request body after pydantic validation
(models/schedule_links.py `ScheduleLink`): `maxDaysInAdvance` has model
default 30 (line 17), so the field is always present once the boundary has
been crossed. -/
structure LinkCreateReq where
  slug : String
  meetingLength : Nat
  maxUses : Option Nat
  expirationDate : Option Nat
  maxDaysInAdvance : Nat := 30
  customQuestions : List String
deriving DecidableEq, Repr

/-- Outcome of `create_schedule_link` (schedule_links.py lines 52-106). -/
inductive CreateResult where
  | ok (newId : Nat)
  | conflict
deriving DecidableEq, Repr

/-- Embedding of `create_schedule_link` (schedule_links.py lines 52-106):
reject a duplicate (owner, slug), otherwise insert the document built from
the validated request with `uses = 0` (lines 75-91).  Every stored field of
the request is persisted, in particular `maxDaysInAdvance`. -/
def createScheduleLink (db : DB) (userEmail : String) (req : LinkCreateReq) :
    CreateResult × DB :=
  if db.scheduleLinks.any (fun l => l.userId == userEmail && l.slug == req.slug) then
    (.conflict, db)
  else
    let link : Link :=
      ⟨db.nextId, userEmail, req.slug, some req.meetingLength, req.maxUses,
        req.expirationDate, some req.maxDaysInAdvance, req.customQuestions, 0⟩
    (.ok db.nextId,
      { db with scheduleLinks := db.scheduleLinks ++ [link],
                nextId := db.nextId + 1 })

/-- Outcome of `update_schedule_link` (schedule_links.py lines 108-173). -/
inductive UpdateResult where
  | ok
  | notFound
  | conflict
deriving DecidableEq, Repr

/-- Embedding of `update_schedule_link` (schedule_links.py lines 108-173):
look the link up by (id, owner), reject a slug collision with a different
link of the same owner, and otherwise `$set` the new fields while keeping
the stored owner and preserving the `uses` counter (line 155). -/
def updateScheduleLink (db : DB) (userEmail : String) (linkId : Nat)
    (req : LinkCreateReq) : UpdateResult × DB :=
  match db.scheduleLinks.find? (fun l => l.id == linkId && l.userId == userEmail) with
  | none => (.notFound, db)
  | some existing =>
    if req.slug != existing.slug &&
        db.scheduleLinks.any (fun l =>
          l.userId == userEmail && l.slug == req.slug && l.id != linkId) then
      (.conflict, db)
    else
      let db1 := { db with scheduleLinks := db.scheduleLinks.map (fun l =>
        if l.id == linkId then
          ⟨l.id, l.userId, req.slug, some req.meetingLength, req.maxUses,
            req.expirationDate, some req.maxDaysInAdvance, req.customQuestions,
            existing.uses⟩
        else l) }
      (.ok, db1)

/-- Outcome of `delete_schedule_link` (schedule_links.py lines 175-200). -/
inductive DeleteResult where
  | ok
  | notFoundErr
deriving DecidableEq, Repr

/-- Embedding of `delete_schedule_link` (schedule_links.py lines 175-200):
`delete_one` on the (id, owner) filter removes at most one matching
document, and a `deleted_count` of zero raises a 404 (line 190).  No other
collection is touched. -/
def deleteScheduleLink (db : DB) (userEmail : String) (linkId : Nat) :
    DeleteResult × DB :=
  if db.scheduleLinks.any (fun l => l.id == linkId && l.userId == userEmail) then
    (.ok, { db with scheduleLinks := db.scheduleLinks.eraseP (fun l =>
      l.id == linkId && l.userId == userEmail) })
  else (.notFoundErr, db)

/-- An availability window request after parsing
(models/availability.py `AvailabilityWindow`). -/
structure WindowReq where
  weekday : String
  startTime : String
  endTime : String
deriving DecidableEq, Repr

/-- Embedding of the pydantic field pattern
`^([0-1]?[0-9]|2[0-3]):[0-5][0-9]$` on the two time fields
(models/availability.py lines 17-18). -/
def matchesTimePattern (s : String) : Bool :=
  match s.data with
  | [h, c, m1, m2] =>
    h.isDigit && c == ':' && ('0' ≤ m1 && m1 ≤ '5') && m2.isDigit
  | [h1, h2, c, m1, m2] =>
    (((h1 == '0' || h1 == '1') && h2.isDigit) ||
      (h1 == '2' && '0' ≤ h2 && h2 ≤ '3')) &&
    c == ':' && ('0' ≤ m1 && m1 ≤ '5') && m2.isDigit
  | _ => false

/-- The pydantic boundary of an availability request: weekday must be one
of the seven enum values and both times must match the pattern.  The
relation start < end is NOT part of this boundary. -/
def windowWellFormed (w : WindowReq) : Bool :=
  ["monday", "tuesday", "wednesday", "thursday", "friday", "saturday",
    "sunday"].contains w.weekday &&
  matchesTimePattern w.startTime && matchesTimePattern w.endTime

/-- Embedding of `time.fromisoformat` on an `HH:MM` string, as minutes
since midnight. -/
def timeToMinutes (s : String) : Option Nat :=
  match s.data with
  | [h1, h2, c, m1, m2] =>
    if c == ':' then do
      let h ← parse2 h1 h2
      let m ← parse2 m1 m2
      if h ≤ 23 && m ≤ 59 then pure (h * 60 + m) else none
    else none
  | _ => none

/-- Embedding of `AvailabilityWindow.validate_times`
(models/availability.py lines 20-25): true when both times parse and
start < end.  This method is defined in the source but is never invoked by
any route. -/
def validateTimes (w : WindowReq) : Bool :=
  match timeToMinutes w.startTime, timeToMinutes w.endTime with
  | some s, some e => decide (s < e)
  | _, _ => false

/-- Outcome of `save_availability`: the handler has no rejection branch
for window contents (availability.py lines 20-49). -/
inductive SaveResult where
  | ok
deriving DecidableEq, Repr

/-- Embedding of `save_availability` (availability.py lines 20-49): every
window of the payload is converted to a document and inserted; no check
relating start and end times is performed. -/
def saveAvailability (db : DB) (userEmail : String) (windows : List WindowReq) :
    SaveResult × DB :=
  let newDocs := windows.map (fun w =>
    WindowDoc.mk userEmail w.weekday w.startTime w.endTime)
  (.ok, { db with availabilityWindows := db.availabilityWindows ++ newDocs })

/-- A storage-level index specification. -/
structure IndexSpec where
  collection : String
  keys : List String
  unique : Bool
deriving DecidableEq, Repr

/-- The indexes created by `init_db` (db/mongo.py lines 119-140): exactly
one, the unique (slug, userId) index on `schedule_links` (lines 131-137).
No index is created on any other collection. -/
def initDbIndexes : List IndexSpec :=
  [⟨"schedule_links", ["slug", "userId"], true⟩]

/-- Shared state of N concurrent booking attempts against one link,
projected to the fields the usage cap depends on.  Attempts are identical
processes, so only the count in each phase matters: `unchecked` attempts
have not yet executed the read-based cap check of public.py lines 196-202,
`passed` attempts have passed it but not yet executed the `$inc` of lines
249-252, and `succeeded`/`failed` attempts are finished. -/
structure CapState where
  uses : Nat
  unchecked : Nat
  passed : Nat
  succeeded : Nat
  failed : Nat
deriving DecidableEq, Repr

/-- The two `uses`-relevant steps of a booking attempt: the read-based cap
check and the unconditional increment. -/
inductive CapAction where
  | check
  | inc
deriving DecidableEq, Repr

/-- One interleaving step: `check` moves an unchecked attempt to `passed`
or `failed` according to `capExceeded` at the CURRENT counter value (the
read-then-check of public.py lines 196-202); `inc` lets a passed attempt
perform the unconditional `$inc` of lines 249-252 and succeed.  A step
with no attempt in the source phase is a no-op. -/
def capStep (maxUses : Option Nat) (s : CapState) : CapAction → CapState
  | .check =>
    if s.unchecked = 0 then s
    else if capExceeded s.uses maxUses then
      { s with unchecked := s.unchecked - 1, failed := s.failed + 1 }
    else
      { s with unchecked := s.unchecked - 1, passed := s.passed + 1 }
  | .inc =>
    if s.passed = 0 then s
    else { s with passed := s.passed - 1, uses := s.uses + 1,
                  succeeded := s.succeeded + 1 }

/-- Run a schedule of interleaved steps. -/
def capRun (maxUses : Option Nat) (s : CapState) (sched : List CapAction) :
    CapState :=
  sched.foldl (capStep maxUses) s

/-- N attempts, none started, counter at `u`. -/
def initCapAt (u n : Nat) : CapState := ⟨u, n, 0, 0, 0⟩

/-- The serialized schedule: each attempt runs its check and its increment
to completion before the next attempt starts. -/
def serialSched : Nat → List CapAction
  | 0 => []
  | n + 1 => CapAction.check :: CapAction.inc :: serialSched n

/-- Modelled from the spec's words, for comparison with the code: the
advance-window rejection predicate of claim C5, in which
max-days-in-advance "defaults to 30 when the link does not set it". -/
def specAdvanceRejects (link : Link) (now scheduledDate : Nat) : Bool :=
  decide (scheduledDate > now + (link.maxDaysInAdvance.getD 30) * 86400)

/-! Concrete fixtures used by witnesses and counterexamples. -/

/-- The scenario link of the spec: slug `intro-call`, 30-minute meetings,
a single permitted use, no expiry, created with the model default
`maxDaysInAdvance = 30`. -/
def introLink : Link :=
  ⟨1, "advisor@example.com", "intro-call", some 30, some 1, none, some 30, [], 0⟩

/-- A database holding only `introLink`. -/
def introDB : DB := ⟨[introLink], [], [], [], [], 100⟩

/-- The clock fixed at 2025-06-01T00:00:00. -/
def nowJun1 : Nat := toSeconds 2025 6 1 0 0 0

/-- A booking request against link 1 at the given start string. -/
def bookReqAt (s : String) : BookingReq :=
  ⟨1, "visitor@example.com", s, 60, none⟩

/-- `introLink` after its single use has been consumed. -/
def usedLink : Link :=
  ⟨1, "advisor@example.com", "intro-call", some 30, some 1, none, some 30, [], 1⟩

/-- A database holding only `usedLink`. -/
def usedDB : DB := ⟨[usedLink], [], [], [], [], 100⟩

/-- C4.  Sequential usage-cap enforcement.  General part: whenever the
link is found, not expired, `max_uses` is set (to a positive value, as the
model enforces) and `usage ≥ max_uses`, `book()` rejects with the
usage-exceeded reason and leaves the state unchanged.  Scenario part: on
the `intro-call` link with `maxUses = 1` and `uses = 0`, a first valid
booking at 2025-06-01T09:00:00 succeeds and leaves `uses = 1`, and a
second booking at 2025-06-01T10:00:00 is rejected as usage-exceeded. -/
theorem usage_cap_enforced :
    (∀ (db : DB) (req : BookingReq) (now nowDate : Nat) (insOk : Bool)
      (link : Link) (m : Nat),
      db.scheduleLinks.find? (fun l => l.id == req.schedulingLinkId) = some link →
      expiredBefore link.expirationDate nowDate = false →
      link.maxUses = some m → 0 < m → m ≤ link.uses →
      bookMeeting db req now nowDate insOk = (.usageExceeded, db)) ∧
    ((bookMeeting introDB (bookReqAt "2025-06-01T09:00:00") nowJun1 0 true).1 =
        .success 100 ∧
      ((bookMeeting introDB (bookReqAt "2025-06-01T09:00:00") nowJun1 0
          true).2.scheduleLinks.map Link.uses) = [1] ∧
      (bookMeeting
        (bookMeeting introDB (bookReqAt "2025-06-01T09:00:00") nowJun1 0 true).2
        (bookReqAt "2025-06-01T10:00:00") nowJun1 0 true).1 = .usageExceeded) := by
  constructor
  · intro db req now nowDate insOk link m h1 h2 h3 h4 h5
    have hcap : capExceeded link.uses link.maxUses = true := by
      simp [capExceeded, h3]
      omega
    simp [bookMeeting, h1, h2, hcap]
  · exact ⟨by decide, by decide, by decide⟩

/-- Witness for C4: the general part applied to the consumed
`intro-call` link. -/
theorem usage_cap_enforced_witness :
    bookMeeting usedDB (bookReqAt "2025-06-01T10:00:00") nowJun1 0 true =
      (.usageExceeded, usedDB) :=
  usage_cap_enforced.1 usedDB (bookReqAt "2025-06-01T10:00:00") nowJun1 0 true
    usedLink 1 (by rfl) (by rfl) (by rfl) (by decide) (by decide)

/-- A link with no usage cap, used to chain two bookings. -/
def tzLink : Link :=
  ⟨3, "advisor@example.com", "tz-call", some 30, none, none, some 30, [], 0⟩

/-- A database holding only `tzLink`. -/
def tzDB : DB := ⟨[tzLink], [], [], [], [], 100⟩

/-- A booking request spelled without a timezone suffix. -/
def tzReq1 : BookingReq :=
  ⟨3, "visitor@example.com", "2025-06-01T09:00:00", 60, none⟩

/-- The same instant spelled with an explicit `+00:00` suffix. -/
def tzReq2 : BookingReq :=
  ⟨3, "visitor@example.com", "2025-06-01T09:00:00+00:00", 60, none⟩

/-- C9.  The double-booking guard compares `scheduled_for` as a raw
string: the two spellings `2025-06-01T09:00:00` and
`2025-06-01T09:00:00+00:00` denote the same instant (they parse to the
same naive timestamp under the code's own tz-stripping), yet both
bookings succeed and afterwards two bookings of the same owner at that
instant coexist. -/
theorem tz_spelling_double_booking :
    (bookMeeting tzDB tzReq1 nowJun1 0 true).1 = .success 100 ∧
    (bookMeeting (bookMeeting tzDB tzReq1 nowJun1 0 true).2 tzReq2 nowJun1 0
        true).1 = .success 101 ∧
    tzReq1.scheduledFor ≠ tzReq2.scheduledFor ∧
    parseNaive tzReq1.scheduledFor = parseNaive tzReq2.scheduledFor ∧
    ((bookMeeting (bookMeeting tzDB tzReq1 nowJun1 0 true).2 tzReq2 nowJun1 0
        true).2.scheduledEvents.map
      (fun e => (e.userId, parseNaive e.scheduledFor))) =
      [("advisor@example.com", some (toSeconds 2025 6 1 9 0 0)),
        ("advisor@example.com", some (toSeconds 2025 6 1 9 0 0))] :=
  ⟨by decide, by decide, by decide, by decide, by decide⟩

/-- A window whose start time is after its end time; it satisfies the
pydantic field patterns. -/
def badWindow : WindowReq := ⟨"monday", "10:00", "09:00"⟩

/-- The empty database. -/
def emptyDB : DB := ⟨[], [], [], [], [], 0⟩

/-- C7.  The window `monday 10:00-09:00` passes the pydantic boundary
(both fields match the time pattern), is rejected by the model's own
`validate_times` (start ≥ end), and yet `save_availability` persists it
and reports success, because no route ever invokes `validate_times`.
The claim (reject with ValidationError, persist nothing) states the
intent that the source's dead validation method itself documents; the
handler not calling it is the bug. -/
theorem invalid_window_persisted :
    windowWellFormed badWindow = true ∧
    validateTimes badWindow = false ∧
    saveAvailability emptyDB "owner@example.com" [badWindow] =
      (.ok, { emptyDB with availabilityWindows :=
        [⟨"owner@example.com", "monday", "10:00", "09:00"⟩] }) := by
  exact ⟨by decide, by decide, by decide⟩

/-- Serialized executions of the two-step cap protocol: starting from
counter `u` with `n` attempts pending, each attempt that reads a counter
below the cap succeeds and increments, so `min n (k - u)` attempts
succeed. -/
theorem capRun_serial (k : Nat) (hk : 0 < k) :
    ∀ (n u s0 f0 : Nat),
      capRun (some k) ⟨u, n, 0, s0, f0⟩ (serialSched n) =
        ⟨u + min n (k - u), 0, 0, s0 + min n (k - u),
          f0 + (n - min n (k - u))⟩ := by
  intro n
  induction n with
  | zero =>
    intro u s0 f0
    simp [serialSched, capRun]
  | succ n ih =>
    intro u s0 f0
    by_cases hu : k ≤ u
    · have hcap : capExceeded u (some k) = true := by
        simp [capExceeded]
        omega
      have hstep : capRun (some k) ⟨u, n + 1, 0, s0, f0⟩ (serialSched (n + 1)) =
          capRun (some k) ⟨u, n, 0, s0, f0 + 1⟩ (serialSched n) := by
        simp [serialSched, capRun, capStep, hcap]
      rw [hstep, ih]
      simp [CapState.mk.injEq]
      omega
    · have hcap : capExceeded u (some k) = false := by
        simp [capExceeded]
        omega
      have hstep : capRun (some k) ⟨u, n + 1, 0, s0, f0⟩ (serialSched (n + 1)) =
          capRun (some k) ⟨u + 1, n, 0, s0 + 1, f0⟩ (serialSched n) := by
        simp [serialSched, capRun, capStep, hcap]
      rw [hstep, ih]
      simp [CapState.mk.injEq]
      omega

/-- C1 (amended).  The cap enforcement of `book_meeting` is a read-based
pre-check (public.py lines 196-202) followed by an unconditional `$inc`
(lines 249-252), not a single atomic compare-and-increment.  When the N
attempts execute serialized — each attempt's check and increment complete
before the next starts — exactly k of N ≥ k attempts succeed and the
counter ends exactly at the cap. -/
theorem usage_cap_serialized_exact :
    ∀ (n k : Nat), 0 < k → k ≤ n →
      capRun (some k) (initCapAt 0 n) (serialSched n) = ⟨k, 0, 0, k, n - k⟩ := by
  intro n k hk hkn
  rw [initCapAt, capRun_serial k hk n 0 0 0]
  simp [CapState.mk.injEq]
  omega

/-- Witness for C1: three serialized attempts against a cap of one give
exactly one success and a final counter of one. -/
theorem usage_cap_serialized_exact_witness :
    capRun (some 1) (initCapAt 0 3) (serialSched 3) = ⟨1, 0, 0, 1, 2⟩ :=
  usage_cap_serialized_exact 3 1 (by decide) (by decide)

/-- Counterexample to C1 as stated: under the interleaving in which both
attempts perform the read-based check (both reading `uses = 0`) before
either performs its `$inc`, a link with `max_uses = 1` and two concurrent
`book()` calls yields two successes and a final `uses` of 2 — not
"exactly k" successes, and `usage` exceeds `max_uses`. -/
theorem usage_cap_interleaving_overshoot :
    capRun (some 1) (initCapAt 0 2)
      [CapAction.check, CapAction.check, CapAction.inc, CapAction.inc] =
      ⟨2, 0, 0, 2, 0⟩ := by decide

/-- The lazy calendar upsert touches only the `calendars` collection. -/
theorem upsert_scheduledEvents (db : DB) (u : String) :
    (upsertInternalCalendar db u).scheduledEvents = db.scheduledEvents := by
  unfold upsertInternalCalendar
  split <;> rfl

/-- The lazy calendar upsert leaves the links collection alone. -/
theorem upsert_scheduleLinks (db : DB) (u : String) :
    (upsertInternalCalendar db u).scheduleLinks = db.scheduleLinks := by
  unfold upsertInternalCalendar
  split <;> rfl

/-- C10.  `book()` is not atomic across its commit steps: when the insert
of the mirrored internal calendar event fails (public.py lines 296-302),
the handler raises a 500, yet the Booking record inserted at line 245 and
the usage increment of lines 249-252 remain in the state the caller's
error response leaves behind. -/
theorem partial_commit_on_calendar_failure :
    ∀ (db : DB) (req : BookingReq) (now nowDate : Nat) (link : Link) (t : Nat),
      db.scheduleLinks.find? (fun l => l.id == req.schedulingLinkId) = some link →
      expiredBefore link.expirationDate nowDate = false →
      capExceeded link.uses link.maxUses = false →
      parseNaive req.scheduledFor = some t →
      ¬ t > now + (link.maxDaysInAdvance.getD 14) * 86400 →
      db.scheduledEvents.any (fun e => e.userId == link.userId &&
        e.scheduledFor == req.scheduledFor) = false →
      (bookMeeting db req now nowDate false).1 = .serverError ∧
      (bookMeeting db req now nowDate false).2.scheduledEvents =
        db.scheduledEvents ++
          [⟨db.nextId, req.schedulingLinkId, link.userId, req.scheduledFor,
            link.meetingLength.getD req.durationMinutes, req.email,
            req.linkedin⟩] ∧
      (bookMeeting db req now nowDate false).2.scheduleLinks =
        db.scheduleLinks.map (fun l =>
          if l.id == req.schedulingLinkId then { l with uses := l.uses + 1 }
          else l) := by
  intro db req now nowDate link t h1 h2 h3 h4 h5 h6
  simp [bookMeeting, h1, h2, h3, h4, h5, h6, upsert_scheduledEvents,
    upsert_scheduleLinks]

/-- An uncapped link used for the partial-commit witness. -/
def openLink : Link :=
  ⟨1, "advisor@example.com", "open-call", some 30, none, none, some 30, [], 0⟩

/-- A database holding only `openLink`. -/
def openDB : DB := ⟨[openLink], [], [], [], [], 100⟩

/-- Witness for C10: a concrete booking whose calendar-event insert fails
leaves the booking and the incremented counter behind. -/
theorem partial_commit_on_calendar_failure_witness :
    (bookMeeting openDB (bookReqAt "2025-06-01T09:00:00") nowJun1 0 false).1 =
        .serverError ∧
      (bookMeeting openDB (bookReqAt "2025-06-01T09:00:00") nowJun1 0
          false).2.scheduledEvents =
        openDB.scheduledEvents ++
          [⟨openDB.nextId, (bookReqAt "2025-06-01T09:00:00").schedulingLinkId,
            openLink.userId, (bookReqAt "2025-06-01T09:00:00").scheduledFor,
            openLink.meetingLength.getD
              (bookReqAt "2025-06-01T09:00:00").durationMinutes,
            (bookReqAt "2025-06-01T09:00:00").email,
            (bookReqAt "2025-06-01T09:00:00").linkedin⟩] ∧
      (bookMeeting openDB (bookReqAt "2025-06-01T09:00:00") nowJun1 0
          false).2.scheduleLinks =
        openDB.scheduleLinks.map (fun l =>
          if l.id == (bookReqAt "2025-06-01T09:00:00").schedulingLinkId then
            { l with uses := l.uses + 1 }
          else l) :=
  partial_commit_on_calendar_failure openDB (bookReqAt "2025-06-01T09:00:00")
    nowJun1 0 openLink (toSeconds 2025 6 1 9 0 0) (by rfl) (by rfl) (by rfl)
    (by decide) (by decide) (by rfl)

/-- A raw link document that lacks the `maxDaysInAdvance` field. -/
def noAdvLink : Link :=
  ⟨2, "advisor@example.com", "legacy-call", some 30, none, none, none, [], 0⟩

/-- A database holding only `noAdvLink`. -/
def noAdvDB : DB := ⟨[noAdvLink], [], [], [], [], 100⟩

/-- A request twenty days in the future against the legacy link. -/
def noAdvReq : BookingReq :=
  ⟨2, "visitor@example.com", "2025-06-21T00:00:00", 60, none⟩

/-- Counterexample to C5 as stated: against a stored link document that
does not carry `maxDaysInAdvance`, a booking twenty days out is rejected
as too-far-in-advance by the code (whose fallback at public.py line 211 is
14), while the claim's predicate — default 30 — accepts it. -/
theorem advance_default_not_thirty :
    bookMeeting noAdvDB noAdvReq nowJun1 0 true = (.tooFarInAdvance, noAdvDB) ∧
    parseNaive noAdvReq.scheduledFor = some (toSeconds 2025 6 21 0 0 0) ∧
    specAdvanceRejects noAdvLink nowJun1 (toSeconds 2025 6 21 0 0 0) = false := by
  exact ⟨by decide, by decide, by decide⟩

/-- C5 (amended).  `book()` rejects with the too-far-in-advance reason
exactly when the parsed requested start exceeds `now` plus the link's
max-days-in-advance, a start exactly at the boundary being accepted; but
the fallback when the stored document lacks the field is 14 days, not 30.
The model default of 30 (models/schedule_links.py line 17) is applied at
link creation, so every link created through the API stores the field
explicitly. -/
theorem advance_window_iff :
    (∀ (db : DB) (req : BookingReq) (now nowDate : Nat) (insOk : Bool)
      (link : Link) (t : Nat),
      db.scheduleLinks.find? (fun l => l.id == req.schedulingLinkId) = some link →
      expiredBefore link.expirationDate nowDate = false →
      capExceeded link.uses link.maxUses = false →
      parseNaive req.scheduledFor = some t →
      ((bookMeeting db req now nowDate insOk).1 = .tooFarInAdvance ↔
        t > now + (link.maxDaysInAdvance.getD 14) * 86400)) ∧
    (∀ (db : DB) (u : String) (r : LinkCreateReq),
      ∀ l ∈ ((createScheduleLink db u r).2).scheduleLinks,
        l ∈ db.scheduleLinks ∨ l.maxDaysInAdvance = some r.maxDaysInAdvance) := by
  constructor
  · intro db req now nowDate insOk link t h1 h2 h3 h4
    by_cases hgt : t > now + (link.maxDaysInAdvance.getD 14) * 86400
    · simp [bookMeeting, h1, h2, h3, h4, hgt]
    · simp only [bookMeeting, h1, h2, h3, h4]
      simp only [Bool.false_eq_true, if_false, if_neg hgt]
      constructor
      · intro hc
        split at hc <;> simp_all
        split at hc <;> simp_all
      · intro hc
        exact absurd hc hgt
  · intro db u r l hl
    by_cases hc : (db.scheduleLinks.any (fun x =>
        x.userId == u && x.slug == r.slug)) = true
    · simp [createScheduleLink, hc] at hl
      exact Or.inl hl
    · rw [Bool.not_eq_true] at hc
      simp [createScheduleLink, hc] at hl
      rcases hl with hl | hl
      · exact Or.inl hl
      · exact Or.inr (by rw [hl])

/-- Witness for C5: a booking exactly thirty days out against a link that
stores `maxDaysInAdvance = 30` sits exactly on the boundary and is not
rejected by the advance check. -/
theorem advance_window_iff_witness :
    ¬ ((bookMeeting tzDB ⟨3, "visitor@example.com", "2025-07-01T00:00:00", 60,
        none⟩ nowJun1 0 true).1 = .tooFarInAdvance) := by
  have h := advance_window_iff.1 tzDB
    ⟨3, "visitor@example.com", "2025-07-01T00:00:00", 60, none⟩ nowJun1 0 true
    tzLink (toSeconds 2025 7 1 0 0 0) (by rfl) (by rfl) (by rfl) (by decide)
  intro hc
  exact absurd (h.mp hc) (by decide)

/-- A link owned by the advisor with an existing 09:00 booking mirrored
as a busy interval 09:00-09:30 on the internal calendar. -/
def overlapLink : Link :=
  ⟨4, "advisor@example.com", "overlap-call", some 30, none, none, some 30, [], 1⟩

/-- A state holding the overlap scenario. -/
def overlapDB : DB :=
  ⟨[overlapLink],
    [⟨50, 4, "advisor@example.com", "2025-06-01T09:00:00", 30, "a@b.com", none⟩],
    [⟨"internal", "advisor@example.com"⟩],
    [⟨"internal", "50", toSeconds 2025 6 1 9 0 0, toSeconds 2025 6 1 9 30 0,
      "confirmed", "Meeting with client a@b.com"⟩],
    [], 101⟩

/-- A request at 09:15, overlapping the existing 09:00-09:30 meeting but
starting at a different instant. -/
def overlapReq : BookingReq :=
  ⟨4, "visitor@example.com", "2025-06-01T09:15:00", 60, none⟩

/-- C6.  The conflict check is exact-instant only.  General part: given
the earlier validation steps pass, `book()` returns the slot-taken
rejection exactly when some existing booking of the same owner has the
identical `scheduled_for` string — no interval comparison against the
busy intervals occurs.  Concrete part: a request at 09:15 whose half-hour
interval overlaps both the 09:00 booking and its mirrored busy interval
on the internal calendar is nevertheless committed successfully. -/
theorem conflict_exact_instant_only :
    (∀ (db : DB) (req : BookingReq) (now nowDate : Nat) (insOk : Bool)
      (link : Link) (t : Nat),
      db.scheduleLinks.find? (fun l => l.id == req.schedulingLinkId) = some link →
      expiredBefore link.expirationDate nowDate = false →
      capExceeded link.uses link.maxUses = false →
      parseNaive req.scheduledFor = some t →
      ¬ t > now + (link.maxDaysInAdvance.getD 14) * 86400 →
      ((bookMeeting db req now nowDate insOk).1 = .slotTaken ↔
        ∃ e ∈ db.scheduledEvents,
          e.userId = link.userId ∧ e.scheduledFor = req.scheduledFor)) ∧
    ((bookMeeting overlapDB overlapReq nowJun1 0 true).1 = .success 101 ∧
      (∃ e ∈ overlapDB.events,
        e.startTime < toSeconds 2025 6 1 9 15 0 + 30 * 60 ∧
        toSeconds 2025 6 1 9 15 0 < e.endTime) ∧
      (∃ e ∈ overlapDB.scheduledEvents, e.userId = "advisor@example.com" ∧
        e.scheduledFor ≠ overlapReq.scheduledFor)) := by
  constructor
  · intro db req now nowDate insOk link t h1 h2 h3 h4 h5
    by_cases hex : (db.scheduledEvents.any (fun e =>
        e.userId == link.userId && e.scheduledFor == req.scheduledFor)) = true
    · simp [bookMeeting, h1, h2, h3, h4, h5, hex]
      simpa [List.any_eq_true, Bool.and_eq_true, beq_iff_eq] using hex
    · rw [Bool.not_eq_true] at hex
      have hnone : ¬ ∃ e ∈ db.scheduledEvents,
          e.userId = link.userId ∧ e.scheduledFor = req.scheduledFor := by
        rw [← Bool.not_eq_true, List.any_eq_true] at hex
        intro hcon
        exact hex (by
          rcases hcon with ⟨e, he, h7, h8⟩
          exact ⟨e, he, by simp [h7, h8]⟩)
      simp only [bookMeeting, h1, h2, h3, h4]
      simp only [Bool.false_eq_true, if_false, if_neg h5, hex]
      constructor
      · intro hc
        split at hc <;> simp_all
      · intro hc
        exact absurd hc hnone
  · refine ⟨by decide, ?_, ?_⟩
    · exact ⟨⟨"internal", "50", toSeconds 2025 6 1 9 0 0,
        toSeconds 2025 6 1 9 30 0, "confirmed", "Meeting with client a@b.com"⟩,
        by decide, by decide, by decide⟩
    · exact ⟨⟨50, 4, "advisor@example.com", "2025-06-01T09:00:00", 30,
        "a@b.com", none⟩, by decide, by decide, by decide⟩

/-- A state whose advisor already holds a booking at 09:00, spelled
exactly as the incoming duplicate request will spell it. -/
def dupDB : DB :=
  ⟨[⟨5, "advisor@example.com", "dup-call", some 30, none, none, some 30, [], 1⟩],
    [⟨60, 5, "advisor@example.com", "2025-06-01T09:00:00", 30, "x@y.com", none⟩],
    [⟨"internal", "advisor@example.com"⟩], [], [], 101⟩

/-- The duplicate request: same owner, identical start string. -/
def dupReq : BookingReq :=
  ⟨5, "visitor@example.com", "2025-06-01T09:00:00", 60, none⟩

/-- Witness for C6: the exact-duplicate request is rejected as
slot-taken. -/
theorem conflict_exact_instant_only_witness :
    (bookMeeting dupDB dupReq nowJun1 0 true).1 = .slotTaken := by
  have h := conflict_exact_instant_only.1 dupDB dupReq nowJun1 0 true
    ⟨5, "advisor@example.com", "dup-call", some 30, none, none, some 30, [], 1⟩
    (toSeconds 2025 6 1 9 0 0) (by rfl) (by rfl) (by rfl) (by decide) (by decide)
  exact h.mpr ⟨⟨60, 5, "advisor@example.com", "2025-06-01T09:00:00", 30,
    "x@y.com", none⟩, by decide, by decide, by decide⟩

/-- Counterexample to C2 as stated: `init_db` creates exactly one index —
the unique (slug, userId) index on `schedule_links` — and none at all on
the bookings collection, so no storage-level unique index on
(owner, requested_start) backs the double-booking guard. -/
theorem no_unique_booking_index :
    initDbIndexes = [⟨"schedule_links", ["slug", "userId"], true⟩] ∧
    initDbIndexes.any (fun i => i.collection == "scheduled_events") = false := by
  exact ⟨by decide, by decide⟩

/-- C2 (amended).  The application-level guard holds: when a booking
already exists for the same owner and the same requested start (and the
earlier validation steps pass), a subsequent `book()` for that pair is
rejected with the slot-taken reason and the state is unchanged.  But the
storage layer provides no second line of defense for this invariant:
every index `init_db` creates is the unique (slug, userId) index on the
links collection. -/
theorem double_booking_guard_app_level :
    (∀ (db : DB) (req : BookingReq) (now nowDate : Nat) (insOk : Bool)
      (link : Link) (t : Nat),
      db.scheduleLinks.find? (fun l => l.id == req.schedulingLinkId) = some link →
      expiredBefore link.expirationDate nowDate = false →
      capExceeded link.uses link.maxUses = false →
      parseNaive req.scheduledFor = some t →
      ¬ t > now + (link.maxDaysInAdvance.getD 14) * 86400 →
      db.scheduledEvents.any (fun e => e.userId == link.userId &&
        e.scheduledFor == req.scheduledFor) = true →
      bookMeeting db req now nowDate insOk = (.slotTaken, db)) ∧
    (∀ i ∈ initDbIndexes,
      i.collection = "schedule_links" ∧ i.keys = ["slug", "userId"] ∧
        i.unique = true) := by
  constructor
  · intro db req now nowDate insOk link t h1 h2 h3 h4 h5 h6
    simp [bookMeeting, h1, h2, h3, h4, h5, h6]
  · intro i hi
    simp [initDbIndexes] at hi
    rw [hi]
    exact ⟨rfl, rfl, rfl⟩

/-- Witness for C2: the duplicate request of the `dupDB` scenario is
rejected with the slot-taken reason and leaves the state unchanged. -/
theorem double_booking_guard_app_level_witness :
    bookMeeting dupDB dupReq nowJun1 0 false = (.slotTaken, dupDB) :=
  double_booking_guard_app_level.1 dupDB dupReq nowJun1 0 false
    ⟨5, "advisor@example.com", "dup-call", some 30, none, none, some 30, [], 1⟩
    (toSeconds 2025 6 1 9 0 0) (by rfl) (by rfl) (by rfl) (by decide) (by decide)
    (by decide)

/-- In a collection whose documents have pairwise-distinct ids (MongoDB's
`_id` uniqueness), two members with the same id are the same document. -/
theorem pairwise_id_unique {l : List Link}
    (hp : l.Pairwise (fun a b => a.id ≠ b.id)) :
    ∀ {x y : Link}, x ∈ l → y ∈ l → x.id = y.id → x = y := by
  induction l with
  | nil =>
    intro x y hx
    simp at hx
  | cons a t ih =>
    intro x y hx hy hxy
    rcases List.pairwise_cons.mp hp with ⟨ha, ht⟩
    rcases List.mem_cons.mp hx with hx1 | hx1
    · rcases List.mem_cons.mp hy with hy1 | hy1
      · rw [hx1, hy1]
      · rw [hx1] at hxy
        exact absurd hxy (ha y hy1)
    · rcases List.mem_cons.mp hy with hy1 | hy1
      · rw [hy1] at hxy
        exact absurd hxy.symm (ha x hx1)
      · exact ih ht hx1 hy1 hxy

/-- A database fresh for the link-view counterexample is `tzDB` itself:
its single link has `uses = 0`. -/
theorem link_view_increments_uses :
    (viewPublicLinkBySlug tzDB "tz-call" 0).1 = .ok "tz-call" (some 30) 30 [] ∧
    tzDB.scheduleLinks.map Link.uses = [0] ∧
    (viewPublicLinkBySlug tzDB "tz-call" 0).2.scheduleLinks.map Link.uses =
      [1] := by
  exact ⟨by decide, by decide, by decide⟩

/-- C3 (amended).  The `uses` counter is not mutated only by the booking
increment: the public link view of schedule_links.py (lines 252-256) and
the increment-use endpoint (lines 296-299) each increment the viewed
link's counter whenever their expiry/cap guards pass, while the link
update endpoint preserves the counter (line 155). -/
theorem uses_mutators :
    (∀ (db : DB) (slug : String) (nowDate : Nat) (link : Link),
      db.scheduleLinks.find? (fun l => l.slug == slug) = some link →
      expiredBefore link.expirationDate nowDate = false →
      capExceeded link.uses link.maxUses = false →
      (viewPublicLinkBySlug db slug nowDate).2.scheduleLinks =
        db.scheduleLinks.map (fun l =>
          if l.id == link.id then { l with uses := l.uses + 1 } else l)) ∧
    (∀ (db : DB) (slug : String) (nowDate : Nat) (link : Link),
      db.scheduleLinks.find? (fun l => l.slug == slug) = some link →
      expiredBefore link.expirationDate nowDate = false →
      capExceeded link.uses link.maxUses = false →
      (incrementLinkUsage db slug nowDate).2.scheduleLinks =
        db.scheduleLinks.map (fun l =>
          if l.id == link.id then { l with uses := l.uses + 1 } else l)) ∧
    (∀ (db : DB) (u : String) (lid : Nat) (r : LinkCreateReq),
      db.scheduleLinks.Pairwise (fun a b => a.id ≠ b.id) →
      ((updateScheduleLink db u lid r).2).scheduleLinks.map Link.uses =
        db.scheduleLinks.map Link.uses) := by
  refine ⟨?_, ?_, ?_⟩
  · intro db slug nowDate link h1 h2 h3
    simp [viewPublicLinkBySlug, h1, h2, h3]
  · intro db slug nowDate link h1 h2 h3
    simp [incrementLinkUsage, h1, h2, h3]
  · intro db u lid r hpw
    cases hfind : db.scheduleLinks.find? (fun l => l.id == lid && l.userId == u) with
    | none => simp [updateScheduleLink, hfind]
    | some existing =>
      have hmem := List.mem_of_find?_eq_some hfind
      have hpred := List.find?_some hfind
      simp only [Bool.and_eq_true, beq_iff_eq] at hpred
      by_cases hconf : (r.slug != existing.slug &&
          db.scheduleLinks.any (fun l =>
            l.userId == u && l.slug == r.slug && l.id != lid)) = true
      · simp [updateScheduleLink, hfind, hconf]
      · rw [Bool.not_eq_true] at hconf
        simp only [updateScheduleLink, hfind, hconf, Bool.false_eq_true,
          if_false, List.map_map]
        apply List.map_congr_left
        intro x hx
        by_cases hid : (x.id == lid) = true
        · have hxid : x.id = lid := by simpa using hid
          have hxe : x = existing :=
            pairwise_id_unique hpw hx hmem (by rw [hxid, hpred.1])
          simp only [Function.comp, hid, if_true]
          rw [hxe]
        · simp [Function.comp, hid]

/-- Witness for C3: the link view applied to `tzDB` increments the single
link's counter. -/
theorem uses_mutators_witness :
    (viewPublicLinkBySlug tzDB "tz-call" 0).2.scheduleLinks =
      tzDB.scheduleLinks.map (fun l =>
        if l.id == tzLink.id then { l with uses := l.uses + 1 } else l) :=
  uses_mutators.1 tzDB "tz-call" 0 tzLink (by rfl) (by rfl) (by rfl)

/-- Deleting a (id, owner)-matching document leaves no further match when
ids are pairwise distinct. -/
theorem erase_delete_no_match (u : String) (lid : Nat) :
    ∀ (l : List Link), l.Pairwise (fun a b => a.id ≠ b.id) →
      ((l.eraseP (fun x => x.id == lid && x.userId == u)).any
        (fun x => x.id == lid && x.userId == u)) = false := by
  intro l
  induction l with
  | nil => intro _; rfl
  | cons a t ih =>
    intro hp
    rcases List.pairwise_cons.mp hp with ⟨ha, ht⟩
    by_cases hpa : (a.id == lid && a.userId == u) = true
    · have haid : a.id = lid := by
        simp only [Bool.and_eq_true, beq_iff_eq] at hpa
        exact hpa.1
      rw [List.eraseP_cons_of_pos
        (p := fun (x : Link) => x.id == lid && x.userId == u) hpa,
        List.any_eq_false]
      intro x hx
      have hne : a.id ≠ x.id := ha x hx
      simp only [Bool.and_eq_true, beq_iff_eq, not_and]
      intro hxid
      exact absurd (by rw [haid, hxid]) hne
    · rw [List.eraseP_cons_of_neg
        (p := fun (x : Link) => x.id == lid && x.userId == u)
        (by simpa using hpa)]
      simp only [List.any_cons, Bool.or_eq_false_iff]
      constructor
      · simpa using hpa
      · exact ih ht

/-- A database holding one link owned by the deleting user. -/
def soloDB : DB :=
  ⟨[⟨7, "owner@example.com", "one", some 30, none, none, some 30, [], 0⟩],
    [], [], [], [], 10⟩

/-- Counterexample to C8 as stated: the first delete of the only link
succeeds, but repeating the delete does not complete without error — the
handler reports the 404 not-found failure (schedule_links.py line 190). -/
theorem second_delete_errors :
    (deleteScheduleLink soloDB "owner@example.com" 7).1 = .ok ∧
    (deleteScheduleLink (deleteScheduleLink soloDB "owner@example.com" 7).2
      "owner@example.com" 7).1 = .notFoundErr := by
  exact ⟨by decide, by decide⟩

/-- C8 (amended).  For a state with MongoDB's id uniqueness, deleting the
same link twice leaves exactly the state of deleting it once, and no
record outside the links collection is touched — deletion is idempotent
on the state and cascades to nothing — but the second delete reports the
404 not-found failure instead of completing without error. -/
theorem delete_idempotent_state :
    ∀ (db : DB) (u : String) (lid : Nat),
      db.scheduleLinks.Pairwise (fun a b => a.id ≠ b.id) →
      ((deleteScheduleLink (deleteScheduleLink db u lid).2 u lid).1 =
          .notFoundErr ∧
        (deleteScheduleLink (deleteScheduleLink db u lid).2 u lid).2 =
          (deleteScheduleLink db u lid).2 ∧
        (deleteScheduleLink db u lid).2.scheduledEvents = db.scheduledEvents ∧
        (deleteScheduleLink db u lid).2.events = db.events ∧
        (deleteScheduleLink db u lid).2.calendars = db.calendars ∧
        (deleteScheduleLink db u lid).2.availabilityWindows =
          db.availabilityWindows) := by
  intro db u lid hpw
  by_cases hm : (db.scheduleLinks.any (fun x =>
      x.id == lid && x.userId == u)) = true
  · have h2 := erase_delete_no_match u lid db.scheduleLinks hpw
    simp [deleteScheduleLink, hm, h2]
  · rw [Bool.not_eq_true] at hm
    simp [deleteScheduleLink, hm]

/-- Witness for C8: the double delete against `soloDB`. -/
theorem delete_idempotent_state_witness :
    (deleteScheduleLink (deleteScheduleLink soloDB "owner@example.com" 7).2
        "owner@example.com" 7).1 = .notFoundErr ∧
      (deleteScheduleLink (deleteScheduleLink soloDB "owner@example.com" 7).2
          "owner@example.com" 7).2 =
        (deleteScheduleLink soloDB "owner@example.com" 7).2 ∧
      (deleteScheduleLink soloDB "owner@example.com" 7).2.scheduledEvents =
        soloDB.scheduledEvents ∧
      (deleteScheduleLink soloDB "owner@example.com" 7).2.events =
        soloDB.events ∧
      (deleteScheduleLink soloDB "owner@example.com" 7).2.calendars =
        soloDB.calendars ∧
      (deleteScheduleLink soloDB "owner@example.com" 7).2.availabilityWindows =
        soloDB.availabilityWindows :=
  delete_idempotent_state soloDB "owner@example.com" 7 (by simp [soloDB])

end MeetingScheduler
